import Mathlib

/-!
# Verification of the flingoos-shared data-contract schemas

Shallow embedding of the two schema modules of the repository:

* `text_trigger.py` — `TextSessionRef`, `TextProcessingOptions`, `TextTrigger`,
  `TextGenerateResponse` (pydantic models with `extra='forbid'`, length bounds
  on `content`, closed enumerations, and literal `version`/`source` fields);
* `persistent_session.py` — `PersistentSession` (a pydantic model with plain
  type annotations, default `extra` handling, and defaults for `retry_count`
  and `version`).

Untyped wire data is modelled as an association list of field name to a
JSON-like value.  Validate-and-construct is modelled per schema as a function
from such a structure to `Option` of the typed record, following pydantic
semantics: required fields must be present with the matching type, optional
fields accept null or absence, defaulted fields take the default when absent,
closed schemas reject undeclared keys, declared constraints
(`min_length`/`max_length`, enum membership, literal equality) are checked.
Serialize is modelled per schema as the canonical association list in field
declaration order, with `null` for unset optionals.
-/

/-- A JSON-compatible value as carried by the wire structures.  Floats carry a
rational stand-in for the numeric value; no arithmetic is performed on them. -/
inductive JValue where
  | jnull : JValue
  | jstr : String → JValue
  | jint : Int → JValue
  | jfloat : Rat → JValue
  | jobj : List (String × JValue) → JValue

/-- Look up a field in an untyped key/value structure (first occurrence). -/
def lookupField (d : List (String × JValue)) (k : String) : Option JValue :=
  match d.find? (fun p => p.1 == k) with
  | some p => some p.2
  | none => none

/-- A required `str` field: present with a string value. -/
def reqStr (d : List (String × JValue)) (k : String) : Option String :=
  match lookupField d k with
  | some (JValue.jstr s) => some s
  | _ => none

/-- An `Optional[str]` field: absent or null decode to `none`. -/
def optStr (d : List (String × JValue)) (k : String) : Option (Option String) :=
  match lookupField d k with
  | none => some none
  | some JValue.jnull => some none
  | some (JValue.jstr s) => some (some s)
  | some _ => none

/-- An `Optional[int]` field: absent or null decode to `none`. -/
def optInt (d : List (String × JValue)) (k : String) : Option (Option Int) :=
  match lookupField d k with
  | none => some none
  | some JValue.jnull => some none
  | some (JValue.jint n) => some (some n)
  | some _ => none

/-- An `Optional[float]` field: absent or null decode to `none`; an integer is
coerced to the float value, per pydantic lax mode. -/
def optFloat (d : List (String × JValue)) (k : String) : Option (Option Rat) :=
  match lookupField d k with
  | none => some none
  | some JValue.jnull => some none
  | some (JValue.jfloat q) => some (some q)
  | some (JValue.jint n) => some (some (n : Rat))
  | some _ => none

/-- A `str` field with a default: absent takes the default. -/
def strFieldD (d : List (String × JValue)) (k : String) (dflt : String) :
    Option String :=
  match lookupField d k with
  | none => some dflt
  | some (JValue.jstr s) => some s
  | some _ => none

/-- An `int` field with a default: absent takes the default. -/
def intFieldD (d : List (String × JValue)) (k : String) (dflt : Int) :
    Option Int :=
  match lookupField d k with
  | none => some dflt
  | some (JValue.jint n) => some n
  | some _ => none

/-- A required enumeration field: present with a string in the closed set. -/
def enumFieldReq {α : Type} (parse : String → Option α)
    (d : List (String × JValue)) (k : String) : Option α :=
  match lookupField d k with
  | some (JValue.jstr s) => parse s
  | _ => none

/-- An enumeration field with a default: absent takes the default. -/
def enumFieldD {α : Type} (parse : String → Option α)
    (d : List (String × JValue)) (k : String) (dflt : α) : Option α :=
  match lookupField d k with
  | none => some dflt
  | some (JValue.jstr s) => parse s
  | some _ => none

/-- A `Literal[lit]` field with itself as default: absent takes the literal,
present must equal it. -/
def litFieldD (d : List (String × JValue)) (k : String) (lit : String) :
    Option String :=
  match lookupField d k with
  | none => some lit
  | some (JValue.jstr s) => if s = lit then some s else none
  | some _ => none

/-- A required nested-model field: present with an object value that the nested
model validates. -/
def objField {α : Type} (validate : List (String × JValue) → Option α)
    (d : List (String × JValue)) (k : String) : Option α :=
  match lookupField d k with
  | some (JValue.jobj fields) => validate fields
  | _ => none

/-- `TextOutputLanguage`: output language options (`auto` plus language
codes), from `text_trigger.py`. -/
inductive TextOutputLanguage where
  | auto | en | es | fr | de | pt | zh | ja | ko | ar
  | he | ru | it | nl | pl | tr | vi | th | id | hi
deriving DecidableEq

/-- Wire string of each `TextOutputLanguage` member. -/
def TextOutputLanguage.toWire : TextOutputLanguage → String
  | .auto => "auto"
  | .en => "en"
  | .es => "es"
  | .fr => "fr"
  | .de => "de"
  | .pt => "pt"
  | .zh => "zh"
  | .ja => "ja"
  | .ko => "ko"
  | .ar => "ar"
  | .he => "he"
  | .ru => "ru"
  | .it => "it"
  | .nl => "nl"
  | .pl => "pl"
  | .tr => "tr"
  | .vi => "vi"
  | .th => "th"
  | .id => "id"
  | .hi => "hi"

/-- Parse a wire string into `TextOutputLanguage`; any string outside the
closed set is rejected. -/
def TextOutputLanguage.ofWire (s : String) : Option TextOutputLanguage :=
  if s = "auto" then some .auto
  else if s = "en" then some .en
  else if s = "es" then some .es
  else if s = "fr" then some .fr
  else if s = "de" then some .de
  else if s = "pt" then some .pt
  else if s = "zh" then some .zh
  else if s = "ja" then some .ja
  else if s = "ko" then some .ko
  else if s = "ar" then some .ar
  else if s = "he" then some .he
  else if s = "ru" then some .ru
  else if s = "it" then some .it
  else if s = "nl" then some .nl
  else if s = "pl" then some .pl
  else if s = "tr" then some .tr
  else if s = "vi" then some .vi
  else if s = "th" then some .th
  else if s = "id" then some .id
  else if s = "hi" then some .hi
  else none

/-- `TextInputType`: text input type, from `text_trigger.py`. -/
inductive TextInputType where
  | workflowRecording | teachingSession
deriving DecidableEq

/-- Wire string of each `TextInputType` member. -/
def TextInputType.toWire : TextInputType → String
  | .workflowRecording => "workflow_recording"
  | .teachingSession => "teaching_session"

/-- Parse a wire string into `TextInputType`. -/
def TextInputType.ofWire (s : String) : Option TextInputType :=
  if s = "workflow_recording" then some .workflowRecording
  else if s = "teaching_session" then some .teachingSession
  else none

/-- `TextOutputFormat`: output format type, from `text_trigger.py`. -/
inductive TextOutputFormat where
  | workflowGuide | knowledgeBase
deriving DecidableEq

/-- Wire string of each `TextOutputFormat` member. -/
def TextOutputFormat.toWire : TextOutputFormat → String
  | .workflowGuide => "workflow_guide"
  | .knowledgeBase => "knowledge_base"

/-- Parse a wire string into `TextOutputFormat`. -/
def TextOutputFormat.ofWire (s : String) : Option TextOutputFormat :=
  if s = "workflow_guide" then some .workflowGuide
  else if s = "knowledge_base" then some .knowledgeBase
  else none

/-- `TextVisibility`: visibility options, from `text_trigger.py`. -/
inductive TextVisibility where
  | priv | orgView | orgEdit
deriving DecidableEq

/-- Wire string of each `TextVisibility` member. -/
def TextVisibility.toWire : TextVisibility → String
  | .priv => "private"
  | .orgView => "org:view"
  | .orgEdit => "org:edit"

/-- Parse a wire string into `TextVisibility`. -/
def TextVisibility.ofWire (s : String) : Option TextVisibility :=
  if s = "private" then some .priv
  else if s = "org:view" then some .orgView
  else if s = "org:edit" then some .orgEdit
  else none

/-- Typed `TextSessionRef` (text_trigger.py lines 60-75). -/
structure TextSessionRef where
  org_id : String
  user_id : String
  user_email : Option String
  session_id : String
  content : String
deriving DecidableEq

/-- Typed `TextProcessingOptions` (text_trigger.py lines 78-88). -/
structure TextProcessingOptions where
  input_type : TextInputType
  output_format : TextOutputFormat
  model : String
  output_language : TextOutputLanguage
deriving DecidableEq

/-- Typed `TextTrigger` (text_trigger.py lines 90-113).  The `Literal` fields
`version` and `source` are carried as strings; a constructed instance always
holds the literal values. -/
structure TextTrigger where
  version : String
  text_session : TextSessionRef
  processing_options : TextProcessingOptions
  visibility : TextVisibility
  source : String
  project_id : Option String
  name : Option String
deriving DecidableEq

/-- Typed `TextGenerateResponse` (text_trigger.py lines 116-123).  `status` is
carried as a string; a constructed instance holds `accepted` or `error`. -/
structure TextGenerateResponse where
  status : String
  session_id : String
  message : String
  estimated_seconds : Option Int
deriving DecidableEq

/-- Typed `PersistentSession` (persistent_session.py lines 8-39). -/
structure PersistentSession where
  session_id : String
  user_id : String
  org_id : String
  device_fingerprint : String
  created_at : String
  started_at : String
  stopped_at : Option String
  completed_at : Option String
  updated_at : String
  status : String
  substatus : Option String
  presence_ticket_jti : String
  processing_id : Option String
  firestore_path : Option String
  processing_time_seconds : Option Rat
  stopped_by_user_id : Option String
  stop_method : Option String
  error : Option String
  error_code : Option String
  retry_count : Int
  version : Int
  ttl_expires_at : String
deriving DecidableEq

/-- Declared field names of `TextSessionRef`. -/
def textSessionRefKeys : List String :=
  ["org_id", "user_id", "user_email", "session_id", "content"]

/-- Declared field names of `TextProcessingOptions`. -/
def textProcessingOptionsKeys : List String :=
  ["input_type", "output_format", "model", "output_language"]

/-- Declared field names of `TextTrigger`. -/
def textTriggerKeys : List String :=
  ["version", "text_session", "processing_options", "visibility", "source",
   "project_id", "name"]

/-- Declared field names of `TextGenerateResponse`. -/
def textGenerateResponseKeys : List String :=
  ["status", "session_id", "message", "estimated_seconds"]

/-- Validate-and-construct for `TextSessionRef`: closed schema
(`extra='forbid'`), `min_length=1` on the identifiers, `min_length=50` and
`max_length=50000` on `content`. -/
def validateTextSessionRef (d : List (String × JValue)) :
    Option TextSessionRef :=
  if d.all (fun p => textSessionRefKeys.contains p.1) then
    match reqStr d "org_id", reqStr d "user_id", optStr d "user_email",
        reqStr d "session_id", reqStr d "content" with
    | some o, some u, some e, some s, some c =>
      if 1 ≤ o.length ∧ 1 ≤ u.length ∧ 1 ≤ s.length ∧ 50 ≤ c.length ∧
          c.length ≤ 50000 then
        some (TextSessionRef.mk o u e s c)
      else none
    | _, _, _, _, _ => none
  else none

/-- Validate-and-construct for `TextProcessingOptions`: closed schema, required
enums `input_type`/`output_format`, `model` defaulting to
`gemini-3-pro-preview`, `output_language` defaulting to `auto`. -/
def validateTextProcessingOptions (d : List (String × JValue)) :
    Option TextProcessingOptions :=
  if d.all (fun p => textProcessingOptionsKeys.contains p.1) then
    match enumFieldReq TextInputType.ofWire d "input_type",
        enumFieldReq TextOutputFormat.ofWire d "output_format",
        strFieldD d "model" "gemini-3-pro-preview",
        enumFieldD TextOutputLanguage.ofWire d "output_language"
          TextOutputLanguage.auto with
    | some it, some ofmt, some m, some ol =>
      some (TextProcessingOptions.mk it ofmt m ol)
    | _, _, _, _ => none
  else none

/-- Validate-and-construct for `TextTrigger`: closed schema, literal
`version`/`source` with themselves as defaults, required nested models,
`visibility` defaulting to `private`, optional `project_id`/`name`. -/
def validateTextTrigger (d : List (String × JValue)) : Option TextTrigger :=
  if d.all (fun p => textTriggerKeys.contains p.1) then
    match litFieldD d "version" "1.0",
        objField validateTextSessionRef d "text_session",
        objField validateTextProcessingOptions d "processing_options",
        enumFieldD TextVisibility.ofWire d "visibility" TextVisibility.priv,
        litFieldD d "source" "mcp-generate",
        optStr d "project_id", optStr d "name" with
    | some v, some ts, some po, some vis, some src, some pid, some nm =>
      some (TextTrigger.mk v ts po vis src pid nm)
    | _, _, _, _, _, _, _ => none
  else none

/-- Validate-and-construct for `TextGenerateResponse`: closed schema, `status`
restricted to the two-value literal set, optional `estimated_seconds`. -/
def validateTextGenerateResponse (d : List (String × JValue)) :
    Option TextGenerateResponse :=
  if d.all (fun p => textGenerateResponseKeys.contains p.1) then
    match reqStr d "status", reqStr d "session_id", reqStr d "message",
        optInt d "estimated_seconds" with
    | some st, some sid, some msg, some est =>
      if st = "accepted" ∨ st = "error" then
        some (TextGenerateResponse.mk st sid msg est)
      else none
    | _, _, _, _ => none
  else none

/-- Validate-and-construct for `PersistentSession`: open schema (pydantic's
default extra handling ignores undeclared keys), plain type annotations, no
value constraints, defaults `retry_count = 0` and `version = 1`. -/
def validatePersistentSession (d : List (String × JValue)) :
    Option PersistentSession :=
  match reqStr d "session_id", reqStr d "user_id", reqStr d "org_id",
      reqStr d "device_fingerprint", reqStr d "created_at",
      reqStr d "started_at", optStr d "stopped_at", optStr d "completed_at",
      reqStr d "updated_at", reqStr d "status", optStr d "substatus",
      reqStr d "presence_ticket_jti", optStr d "processing_id",
      optStr d "firestore_path", optFloat d "processing_time_seconds",
      optStr d "stopped_by_user_id", optStr d "stop_method", optStr d "error",
      optStr d "error_code", intFieldD d "retry_count" 0,
      intFieldD d "version" 1, reqStr d "ttl_expires_at" with
  | some a1, some a2, some a3, some a4, some a5, some a6, some a7, some a8,
    some a9, some a10, some a11, some a12, some a13, some a14, some a15,
    some a16, some a17, some a18, some a19, some a20, some a21, some a22 =>
    some (PersistentSession.mk a1 a2 a3 a4 a5 a6 a7 a8 a9 a10 a11 a12 a13
      a14 a15 a16 a17 a18 a19 a20 a21 a22)
  | _, _, _, _, _, _, _, _, _, _, _, _, _, _, _, _, _, _, _, _, _, _ => none

/-- Serialize an optional string: unset becomes null. -/
def jOptStr : Option String → JValue
  | none => JValue.jnull
  | some s => JValue.jstr s

/-- Serialize an optional integer: unset becomes null. -/
def jOptInt : Option Int → JValue
  | none => JValue.jnull
  | some n => JValue.jint n

/-- Serialize an optional float: unset becomes null. -/
def jOptFloat : Option Rat → JValue
  | none => JValue.jnull
  | some q => JValue.jfloat q

/-- Serialize for `TextSessionRef`: canonical key/value structure in field
declaration order. -/
def TextSessionRef.serialize (r : TextSessionRef) : List (String × JValue) :=
  [("org_id", JValue.jstr r.org_id),
   ("user_id", JValue.jstr r.user_id),
   ("user_email", jOptStr r.user_email),
   ("session_id", JValue.jstr r.session_id),
   ("content", JValue.jstr r.content)]

/-- Serialize for `TextProcessingOptions`. -/
def TextProcessingOptions.serialize (o : TextProcessingOptions) :
    List (String × JValue) :=
  [("input_type", JValue.jstr o.input_type.toWire),
   ("output_format", JValue.jstr o.output_format.toWire),
   ("model", JValue.jstr o.model),
   ("output_language", JValue.jstr o.output_language.toWire)]

/-- Serialize for `TextTrigger`, nested models as objects. -/
def TextTrigger.serialize (t : TextTrigger) : List (String × JValue) :=
  [("version", JValue.jstr t.version),
   ("text_session", JValue.jobj t.text_session.serialize),
   ("processing_options", JValue.jobj t.processing_options.serialize),
   ("visibility", JValue.jstr t.visibility.toWire),
   ("source", JValue.jstr t.source),
   ("project_id", jOptStr t.project_id),
   ("name", jOptStr t.name)]

/-- Serialize for `TextGenerateResponse`. -/
def TextGenerateResponse.serialize (g : TextGenerateResponse) :
    List (String × JValue) :=
  [("status", JValue.jstr g.status),
   ("session_id", JValue.jstr g.session_id),
   ("message", JValue.jstr g.message),
   ("estimated_seconds", jOptInt g.estimated_seconds)]

/-- Serialize for `PersistentSession`: all declared fields in declaration
order, the date-time fields as their ISO-8601 strings. -/
def PersistentSession.serialize (p : PersistentSession) :
    List (String × JValue) :=
  [("session_id", JValue.jstr p.session_id),
   ("user_id", JValue.jstr p.user_id),
   ("org_id", JValue.jstr p.org_id),
   ("device_fingerprint", JValue.jstr p.device_fingerprint),
   ("created_at", JValue.jstr p.created_at),
   ("started_at", JValue.jstr p.started_at),
   ("stopped_at", jOptStr p.stopped_at),
   ("completed_at", jOptStr p.completed_at),
   ("updated_at", JValue.jstr p.updated_at),
   ("status", JValue.jstr p.status),
   ("substatus", jOptStr p.substatus),
   ("presence_ticket_jti", JValue.jstr p.presence_ticket_jti),
   ("processing_id", jOptStr p.processing_id),
   ("firestore_path", jOptStr p.firestore_path),
   ("processing_time_seconds", jOptFloat p.processing_time_seconds),
   ("stopped_by_user_id", jOptStr p.stopped_by_user_id),
   ("stop_method", jOptStr p.stop_method),
   ("error", jOptStr p.error),
   ("error_code", jOptStr p.error_code),
   ("retry_count", JValue.jint p.retry_count),
   ("version", JValue.jint p.version),
   ("ttl_expires_at", JValue.jstr p.ttl_expires_at)]

/-- The declared field constraints of `TextSessionRef`. -/
def TextSessionRef.Valid (r : TextSessionRef) : Prop :=
  1 ≤ r.org_id.length ∧ 1 ≤ r.user_id.length ∧ 1 ≤ r.session_id.length ∧
  50 ≤ r.content.length ∧ r.content.length ≤ 50000

/-- The declared field constraints of `TextTrigger`: the literal fields hold
their literals and the nested session reference is valid. -/
def TextTrigger.Valid (t : TextTrigger) : Prop :=
  t.version = "1.0" ∧ t.source = "mcp-generate" ∧ t.text_session.Valid

/-- The declared field constraints of `TextGenerateResponse`. -/
def TextGenerateResponse.Valid (g : TextGenerateResponse) : Prop :=
  g.status = "accepted" ∨ g.status = "error"

/-- A 52-character content string (the `<52 chars>` sample of the spec). -/
def contentSample : String :=
  "0123456789012345678901234567890123456789012345678901"

/-- Canonical untyped structure for a `TextSessionRef` with `user_email`
omitted, as a producer supplies it. -/
def mkTextSessionRefDict (o u s c : String) : List (String × JValue) :=
  [("org_id", JValue.jstr o),
   ("user_id", JValue.jstr u),
   ("session_id", JValue.jstr s),
   ("content", JValue.jstr c)]

/-- Untyped structure for `TextProcessingOptions` with the two required enums
fixed and `output_language` supplied. -/
def mkProcessingOptionsDict (lang : String) : List (String × JValue) :=
  [("input_type", JValue.jstr "workflow_recording"),
   ("output_format", JValue.jstr "workflow_guide"),
   ("output_language", JValue.jstr lang)]

/-- Untyped structure for a `PersistentSession` holding exactly the required
fields, with the four identity/security fields and `status` as parameters. -/
def mkSessionDict (sid uid oid jti st : String) : List (String × JValue) :=
  [("session_id", JValue.jstr sid),
   ("user_id", JValue.jstr uid),
   ("org_id", JValue.jstr oid),
   ("device_fingerprint", JValue.jstr "dev-1"),
   ("created_at", JValue.jstr "2025-01-01T00:00:00Z"),
   ("started_at", JValue.jstr "2025-01-01T00:00:01Z"),
   ("updated_at", JValue.jstr "2025-01-01T00:00:02Z"),
   ("status", JValue.jstr st),
   ("presence_ticket_jti", JValue.jstr jti),
   ("ttl_expires_at", JValue.jstr "2025-01-08T00:00:00Z")]

/-- The typed record expected from `mkSessionDict`:
defaults `retry_count = 0`, `version = 1`, optionals unset. -/
def mkSessionRecord (sid uid oid jti st : String) : PersistentSession :=
  { session_id := sid, user_id := uid, org_id := oid,
    device_fingerprint := "dev-1", created_at := "2025-01-01T00:00:00Z",
    started_at := "2025-01-01T00:00:01Z", stopped_at := none,
    completed_at := none, updated_at := "2025-01-01T00:00:02Z", status := st,
    substatus := none, presence_ticket_jti := jti, processing_id := none,
    firestore_path := none, processing_time_seconds := none,
    stopped_by_user_id := none, stop_method := none, error := none,
    error_code := none, retry_count := 0, version := 1,
    ttl_expires_at := "2025-01-08T00:00:00Z" }

/-- Untyped `PersistentSession` structure with the six date-time fields as
parameters (the two optional ones supplied). -/
def mkSessionDictTimes (c st sp cp u ttl : String) : List (String × JValue) :=
  [("session_id", JValue.jstr "sess-1"),
   ("user_id", JValue.jstr "user-1"),
   ("org_id", JValue.jstr "org-1"),
   ("device_fingerprint", JValue.jstr "dev-1"),
   ("created_at", JValue.jstr c),
   ("started_at", JValue.jstr st),
   ("stopped_at", JValue.jstr sp),
   ("completed_at", JValue.jstr cp),
   ("updated_at", JValue.jstr u),
   ("status", JValue.jstr "recording"),
   ("presence_ticket_jti", JValue.jstr "jti-1"),
   ("ttl_expires_at", JValue.jstr ttl)]

/-- A concrete valid session record used as sample input. -/
def basePersistentSession : PersistentSession :=
  mkSessionRecord "sess-1" "user-1" "org-1" "jti-1" "recording"

/-- A concrete valid session reference used as sample input. -/
def sampleTextSessionRef : TextSessionRef :=
  ⟨"o1", "u1", none, "s1", contentSample⟩

/-- Concrete processing options used as sample input. -/
def sampleProcessingOptions : TextProcessingOptions :=
  ⟨TextInputType.workflowRecording, TextOutputFormat.workflowGuide,
   "gemini-3-pro-preview", TextOutputLanguage.auto⟩

/-- A concrete valid trigger used as sample input. -/
def sampleTrigger : TextTrigger :=
  ⟨"1.0", sampleTextSessionRef, sampleProcessingOptions, TextVisibility.priv,
   "mcp-generate", none, none⟩

/-- The wire strings accepted for `output_language`: the members of
`TextOutputLanguage` in declaration order. -/
def languageWireStrings : List String :=
  ["auto", "en", "es", "fr", "de", "pt", "zh", "ja", "ko", "ar",
   "he", "ru", "it", "nl", "pl", "tr", "vi", "th", "id", "hi"]

theorem optStr_jOptStr {d : List (String × JValue)} {k : String}
    {o : Option String} (h : lookupField d k = some (jOptStr o)) :
    optStr d k = some o := by
  unfold optStr
  rw [h]
  cases o <;> rfl

theorem optInt_jOptInt {d : List (String × JValue)} {k : String}
    {o : Option Int} (h : lookupField d k = some (jOptInt o)) :
    optInt d k = some o := by
  unfold optInt
  rw [h]
  cases o <;> rfl

theorem optFloat_jOptFloat {d : List (String × JValue)} {k : String}
    {o : Option Rat} (h : lookupField d k = some (jOptFloat o)) :
    optFloat d k = some o := by
  unfold optFloat
  rw [h]
  cases o <;> rfl

theorem textOutputLanguage_ofWire_toWire (l : TextOutputLanguage) :
    TextOutputLanguage.ofWire l.toWire = some l := by
  cases l <;> rfl

theorem textInputType_ofWire_toWire (t : TextInputType) :
    TextInputType.ofWire t.toWire = some t := by
  cases t <;> rfl

theorem textOutputFormat_ofWire_toWire (f : TextOutputFormat) :
    TextOutputFormat.ofWire f.toWire = some f := by
  cases f <;> rfl

theorem textVisibility_ofWire_toWire (v : TextVisibility) :
    TextVisibility.ofWire v.toWire = some v := by
  cases v <;> rfl

theorem textSessionRef_roundtrip (r : TextSessionRef) (h : r.Valid) :
    validateTextSessionRef r.serialize = some r := by
  unfold TextSessionRef.Valid at h
  have e3 : optStr r.serialize "user_email" = some r.user_email :=
    optStr_jOptStr rfl
  unfold validateTextSessionRef
  rw [e3]
  show (if 1 ≤ r.org_id.length ∧ 1 ≤ r.user_id.length ∧
      1 ≤ r.session_id.length ∧ 50 ≤ r.content.length ∧
      r.content.length ≤ 50000 then
      some (TextSessionRef.mk r.org_id r.user_id r.user_email r.session_id
        r.content)
    else none) = some r
  rw [if_pos h]

theorem textProcessingOptions_roundtrip (o : TextProcessingOptions) :
    validateTextProcessingOptions o.serialize = some o := by
  have e1 : enumFieldReq TextInputType.ofWire o.serialize "input_type" =
      some o.input_type := by
    unfold enumFieldReq
    rw [show lookupField o.serialize "input_type" =
      some (JValue.jstr o.input_type.toWire) from rfl]
    exact textInputType_ofWire_toWire _
  have e2 : enumFieldReq TextOutputFormat.ofWire o.serialize "output_format" =
      some o.output_format := by
    unfold enumFieldReq
    rw [show lookupField o.serialize "output_format" =
      some (JValue.jstr o.output_format.toWire) from rfl]
    exact textOutputFormat_ofWire_toWire _
  have e4 : enumFieldD TextOutputLanguage.ofWire o.serialize "output_language"
      TextOutputLanguage.auto = some o.output_language := by
    unfold enumFieldD
    rw [show lookupField o.serialize "output_language" =
      some (JValue.jstr o.output_language.toWire) from rfl]
    exact textOutputLanguage_ofWire_toWire _
  unfold validateTextProcessingOptions
  rw [e1, e2, e4]
  rfl

theorem textTrigger_roundtrip (t : TextTrigger) (h : t.Valid) :
    validateTextTrigger t.serialize = some t := by
  unfold TextTrigger.Valid at h
  obtain ⟨hv, hs, hts⟩ := h
  have e1 : litFieldD t.serialize "version" "1.0" = some t.version := by
    unfold litFieldD
    rw [show lookupField t.serialize "version" =
      some (JValue.jstr t.version) from rfl]
    simp [hv]
  have e2 : objField validateTextSessionRef t.serialize "text_session" =
      some t.text_session := by
    unfold objField
    rw [show lookupField t.serialize "text_session" =
      some (JValue.jobj t.text_session.serialize) from rfl]
    exact textSessionRef_roundtrip _ hts
  have e3 : objField validateTextProcessingOptions t.serialize
      "processing_options" = some t.processing_options := by
    unfold objField
    rw [show lookupField t.serialize "processing_options" =
      some (JValue.jobj t.processing_options.serialize) from rfl]
    exact textProcessingOptions_roundtrip _
  have e4 : enumFieldD TextVisibility.ofWire t.serialize "visibility"
      TextVisibility.priv = some t.visibility := by
    unfold enumFieldD
    rw [show lookupField t.serialize "visibility" =
      some (JValue.jstr t.visibility.toWire) from rfl]
    exact textVisibility_ofWire_toWire _
  have e5 : litFieldD t.serialize "source" "mcp-generate" = some t.source := by
    unfold litFieldD
    rw [show lookupField t.serialize "source" =
      some (JValue.jstr t.source) from rfl]
    simp [hs]
  have e6 : optStr t.serialize "project_id" = some t.project_id :=
    optStr_jOptStr rfl
  have e7 : optStr t.serialize "name" = some t.name :=
    optStr_jOptStr rfl
  unfold validateTextTrigger
  rw [e1, e2, e3, e4, e5, e6, e7]
  show (if true = true then
      some (TextTrigger.mk t.version t.text_session t.processing_options
        t.visibility t.source t.project_id t.name)
    else none) = some t
  rfl

theorem textGenerateResponse_roundtrip (g : TextGenerateResponse)
    (h : g.Valid) : validateTextGenerateResponse g.serialize = some g := by
  unfold TextGenerateResponse.Valid at h
  have e4 : optInt g.serialize "estimated_seconds" =
      some g.estimated_seconds := optInt_jOptInt rfl
  unfold validateTextGenerateResponse
  rw [e4]
  show (if g.status = "accepted" ∨ g.status = "error" then
      some (TextGenerateResponse.mk g.status g.session_id g.message
        g.estimated_seconds)
    else none) = some g
  rw [if_pos h]

theorem validatePersistentSession_serialize_append (p : PersistentSession)
    (extra : List (String × JValue)) :
    validatePersistentSession (p.serialize ++ extra) = some p := by
  have e7 : optStr (p.serialize ++ extra) "stopped_at" =
      some p.stopped_at := optStr_jOptStr rfl
  have e8 : optStr (p.serialize ++ extra) "completed_at" =
      some p.completed_at := optStr_jOptStr rfl
  have e11 : optStr (p.serialize ++ extra) "substatus" =
      some p.substatus := optStr_jOptStr rfl
  have e13 : optStr (p.serialize ++ extra) "processing_id" =
      some p.processing_id := optStr_jOptStr rfl
  have e14 : optStr (p.serialize ++ extra) "firestore_path" =
      some p.firestore_path := optStr_jOptStr rfl
  have e15 : optFloat (p.serialize ++ extra) "processing_time_seconds" =
      some p.processing_time_seconds := optFloat_jOptFloat rfl
  have e16 : optStr (p.serialize ++ extra) "stopped_by_user_id" =
      some p.stopped_by_user_id := optStr_jOptStr rfl
  have e17 : optStr (p.serialize ++ extra) "stop_method" =
      some p.stop_method := optStr_jOptStr rfl
  have e18 : optStr (p.serialize ++ extra) "error" =
      some p.error := optStr_jOptStr rfl
  have e19 : optStr (p.serialize ++ extra) "error_code" =
      some p.error_code := optStr_jOptStr rfl
  unfold validatePersistentSession
  rw [e7, e8, e11, e13, e14, e15, e16, e17, e18, e19]
  rfl

theorem validatePersistentSession_serialize (p : PersistentSession) :
    validatePersistentSession p.serialize = some p := by
  have h := validatePersistentSession_serialize_append p []
  rwa [List.append_nil] at h

/-- C1: for every untyped key/value structure whose fields satisfy the declared
constraints of its schema (`TextSessionRef`, `TextProcessingOptions`,
`TextTrigger`, `TextGenerateResponse`, or `PersistentSession`),
validate-and-construct succeeds and serializing the constructed instance gives
the canonical structure back.  Stated as: on every typed instance satisfying
its schema's declared constraints, validate-and-construct applied to the
canonical serialized structure succeeds and returns exactly that instance
(hence serialize after validate-and-construct is the identity on canonical
structures). -/
theorem C1_serialize_validate_roundtrip :
    (∀ r : TextSessionRef, r.Valid →
      validateTextSessionRef r.serialize = some r) ∧
    (∀ o : TextProcessingOptions,
      validateTextProcessingOptions o.serialize = some o) ∧
    (∀ t : TextTrigger, t.Valid → validateTextTrigger t.serialize = some t) ∧
    (∀ g : TextGenerateResponse, g.Valid →
      validateTextGenerateResponse g.serialize = some g) ∧
    (∀ p : PersistentSession,
      validatePersistentSession p.serialize = some p) :=
  ⟨textSessionRef_roundtrip, textProcessingOptions_roundtrip,
   textTrigger_roundtrip, textGenerateResponse_roundtrip,
   validatePersistentSession_serialize⟩

/-- Witness for C1: the round trip evaluated on a concrete valid trigger and a
concrete session record. -/
theorem C1_serialize_validate_roundtrip_witness :
    validateTextTrigger sampleTrigger.serialize = some sampleTrigger ∧
    validatePersistentSession basePersistentSession.serialize =
      some basePersistentSession :=
  ⟨C1_serialize_validate_roundtrip.2.2.1 sampleTrigger
    (by unfold TextTrigger.Valid TextSessionRef.Valid
        exact ⟨rfl, rfl, by decide⟩),
   C1_serialize_validate_roundtrip.2.2.2.2 basePersistentSession⟩

/-- C2: a `content` string shorter than 50 characters or longer than 50,000
characters makes construction of `TextSessionRef` fail; a length between 50
and 50,000 inclusive satisfies the length constraint (construction succeeds
when the other fields meet their constraints). -/
theorem C2_content_length_bounds (o u s c : String) :
    (c.length < 50 →
      validateTextSessionRef (mkTextSessionRefDict o u s c) = none) ∧
    (50000 < c.length →
      validateTextSessionRef (mkTextSessionRefDict o u s c) = none) ∧
    (50 ≤ c.length → c.length ≤ 50000 → 1 ≤ o.length → 1 ≤ u.length →
      1 ≤ s.length →
      validateTextSessionRef (mkTextSessionRefDict o u s c) =
        some (TextSessionRef.mk o u none s c)) := by
  refine ⟨fun h => ?_, fun h => ?_, fun h1 h2 h3 h4 h5 => ?_⟩
  · show (if 1 ≤ o.length ∧ 1 ≤ u.length ∧ 1 ≤ s.length ∧ 50 ≤ c.length ∧
        c.length ≤ 50000 then some (TextSessionRef.mk o u none s c)
      else none) = none
    exact if_neg (by omega)
  · show (if 1 ≤ o.length ∧ 1 ≤ u.length ∧ 1 ≤ s.length ∧ 50 ≤ c.length ∧
        c.length ≤ 50000 then some (TextSessionRef.mk o u none s c)
      else none) = none
    exact if_neg (by omega)
  · show (if 1 ≤ o.length ∧ 1 ≤ u.length ∧ 1 ≤ s.length ∧ 50 ≤ c.length ∧
        c.length ≤ 50000 then some (TextSessionRef.mk o u none s c)
      else none) = some (TextSessionRef.mk o u none s c)
    exact if_pos ⟨h3, h4, h5, h1, h2⟩

/-- Witness for C2: a 5-character `content` is rejected, the 52-character
sample is accepted. -/
theorem C2_content_length_bounds_witness :
    validateTextSessionRef (mkTextSessionRefDict "o1" "u1" "s1" "short") =
      none ∧
    validateTextSessionRef (mkTextSessionRefDict "o1" "u1" "s1"
      contentSample) = some (TextSessionRef.mk "o1" "u1" none "s1"
      contentSample) :=
  ⟨(C2_content_length_bounds "o1" "u1" "s1" "short").1 (by decide),
   (C2_content_length_bounds "o1" "u1" "s1" contentSample).2.2 (by decide)
     (by decide) (by decide) (by decide) (by decide)⟩

/-- C3: an input structure holding a field not declared in the schema makes
construction of any trigger/response-family object fail (closed schemas),
while a `PersistentSession` constructed from a structure with undeclared
extra fields does not fail on that account (open schema). -/
theorem C3_closed_trigger_family_open_session (d : List (String × JValue))
    (k : String) (v : JValue) (p : PersistentSession)
    (extra : List (String × JValue)) :
    (textSessionRefKeys.contains k = false →
      validateTextSessionRef ((k, v) :: d) = none) ∧
    (textProcessingOptionsKeys.contains k = false →
      validateTextProcessingOptions ((k, v) :: d) = none) ∧
    (textTriggerKeys.contains k = false →
      validateTextTrigger ((k, v) :: d) = none) ∧
    (textGenerateResponseKeys.contains k = false →
      validateTextGenerateResponse ((k, v) :: d) = none) ∧
    validatePersistentSession (p.serialize ++ extra) = some p := by
  refine ⟨fun hk => ?_, fun hk => ?_, fun hk => ?_, fun hk => ?_,
    validatePersistentSession_serialize_append p extra⟩
  · have hc : (((k, v) :: d).all fun q => textSessionRefKeys.contains q.1) =
        false := by
      rw [List.all_cons]
      show (textSessionRefKeys.contains k &&
        d.all fun q => textSessionRefKeys.contains q.1) = false
      rw [hk, Bool.false_and]
    unfold validateTextSessionRef
    rw [hc]
    rfl
  · have hc : (((k, v) :: d).all fun q =>
        textProcessingOptionsKeys.contains q.1) = false := by
      rw [List.all_cons]
      show (textProcessingOptionsKeys.contains k &&
        d.all fun q => textProcessingOptionsKeys.contains q.1) = false
      rw [hk, Bool.false_and]
    unfold validateTextProcessingOptions
    rw [hc]
    rfl
  · have hc : (((k, v) :: d).all fun q => textTriggerKeys.contains q.1) =
        false := by
      rw [List.all_cons]
      show (textTriggerKeys.contains k &&
        d.all fun q => textTriggerKeys.contains q.1) = false
      rw [hk, Bool.false_and]
    unfold validateTextTrigger
    rw [hc]
    rfl
  · have hc : (((k, v) :: d).all fun q =>
        textGenerateResponseKeys.contains q.1) = false := by
      rw [List.all_cons]
      show (textGenerateResponseKeys.contains k &&
        d.all fun q => textGenerateResponseKeys.contains q.1) = false
      rw [hk, Bool.false_and]
    unfold validateTextGenerateResponse
    rw [hc]
    rfl

/-- Witness for C3: the undeclared key `unexpected` is rejected by the closed
`TextSessionRef` schema and ignored by the open `PersistentSession` schema. -/
theorem C3_closed_trigger_family_open_session_witness :
    validateTextSessionRef [("unexpected", JValue.jstr "x")] = none ∧
    validatePersistentSession
      (basePersistentSession.serialize ++ [("unexpected", JValue.jstr "x")]) =
      some basePersistentSession :=
  ⟨(C3_closed_trigger_family_open_session [] "unexpected" (JValue.jstr "x")
      basePersistentSession [("unexpected", JValue.jstr "x")]).1 (by decide),
   (C3_closed_trigger_family_open_session [] "unexpected" (JValue.jstr "x")
      basePersistentSession
      [("unexpected", JValue.jstr "x")]).2.2.2.2⟩

/-- C4: constructing a `TextTrigger` from `text_session`
`{org_id: o1, user_id: u1, session_id: s1, content: <52 chars>}` and
`processing_options` `{input_type: workflow_recording, output_format:
workflow_guide}` with every other field omitted succeeds, and the result has
`version = "1.0"`, `source = "mcp-generate"`, `visibility = private` and
`output_language = auto`. -/
theorem C4_trigger_defaults :
    validateTextTrigger
      [("text_session",
        JValue.jobj (mkTextSessionRefDict "o1" "u1" "s1" contentSample)),
       ("processing_options", JValue.jobj
         [("input_type", JValue.jstr "workflow_recording"),
          ("output_format", JValue.jstr "workflow_guide")])] =
      some sampleTrigger ∧
    sampleTrigger.version = "1.0" ∧
    sampleTrigger.source = "mcp-generate" ∧
    sampleTrigger.visibility = TextVisibility.priv ∧
    sampleTrigger.processing_options.output_language =
      TextOutputLanguage.auto ∧
    contentSample.length = 52 :=
  ⟨rfl, rfl, rfl, rfl, rfl, rfl⟩

/-- Counterexample to C5: the schema declares `retry_count: int = 0` with no
sign constraint, so the structure with `status = "failed"` and
`retry_count = -1` is accepted by validate-and-construct, not rejected. -/
theorem C5_counterexample :
    validatePersistentSession
      (mkSessionDict "sess-1" "user-1" "org-1" "jti-1" "failed" ++
        [("retry_count", JValue.jint (-1))]) =
      some { mkSessionRecord "sess-1" "user-1" "org-1" "jti-1" "failed" with
        retry_count := -1 } := rfl

/-- C5 as amended: constructing a `PersistentSession` with `status = "failed"`
and `retry_count = -1` is accepted with `retry_count = -1` (the schema imposes
no non-negativity constraint), and when `retry_count` is omitted construction
is accepted with `retry_count` defaulting to 0. -/
theorem C5_retry_count_unconstrained :
    validatePersistentSession
      (mkSessionDict "sess-1" "user-1" "org-1" "jti-1" "failed" ++
        [("retry_count", JValue.jint (-1))]) =
      some { mkSessionRecord "sess-1" "user-1" "org-1" "jti-1" "failed" with
        retry_count := -1 } ∧
    validatePersistentSession
      (mkSessionDict "sess-1" "user-1" "org-1" "jti-1" "failed") =
      some (mkSessionRecord "sess-1" "user-1" "org-1" "jti-1" "failed") :=
  ⟨rfl, rfl⟩

/-- Counterexample to C6: the schema declares the identity and
presence-ticket fields as plain `str` with no `min_length`, so a structure in
which `session_id`, `user_id`, `org_id` and `presence_ticket_jti` are all the
empty string is accepted by validate-and-construct. -/
theorem C6_counterexample :
    validatePersistentSession (mkSessionDict "" "" "" "" "recording") =
      some (mkSessionRecord "" "" "" "" "recording") := rfl

/-- C6 as amended: `session_id`, `user_id`, `org_id` and
`presence_ticket_jti` are required fields of `PersistentSession` — omitting
any of them makes validate-and-construct fail — but they admit arbitrary
strings, the empty string included (no non-emptiness constraint), and the
schema declares no immutability enforcement (the model is not frozen). -/
theorem C6_identity_fields_required_but_unconstrained
    (sid uid oid jti : String) :
    validatePersistentSession (mkSessionDict sid uid oid jti "recording") =
      some (mkSessionRecord sid uid oid jti "recording") ∧
    validatePersistentSession
      ((mkSessionDict sid uid oid jti "recording").filter
        fun q => !(q.1 == "session_id")) = none ∧
    validatePersistentSession
      ((mkSessionDict sid uid oid jti "recording").filter
        fun q => !(q.1 == "user_id")) = none ∧
    validatePersistentSession
      ((mkSessionDict sid uid oid jti "recording").filter
        fun q => !(q.1 == "org_id")) = none ∧
    validatePersistentSession
      ((mkSessionDict sid uid oid jti "recording").filter
        fun q => !(q.1 == "presence_ticket_jti")) = none :=
  ⟨rfl, rfl, rfl, rfl, rfl⟩

/-- Counterexample to C7: the source enumeration holds twenty members in
total — `auto` plus nineteen language codes, not twenty codes plus `auto`.
Each of the twenty wire strings is accepted, they are pairwise distinct, and
only nineteen of them differ from `auto`. -/
theorem C7_counterexample :
    (languageWireStrings.filter fun s => !(s == "auto")).length = 19 ∧
    languageWireStrings.Nodup ∧
    (languageWireStrings.all fun s =>
      (TextOutputLanguage.ofWire s).isSome) = true :=
  ⟨rfl, by decide, rfl⟩

/-- C7 as amended: `output_language` accepts exactly a closed set of nineteen
language codes plus `auto` (twenty wire values in total): every string in the
set is accepted, and for every string outside it construction of
`TextProcessingOptions` fails with a validation error. -/
theorem C7_output_language_closed (s : String) :
    (s ∉ languageWireStrings →
      validateTextProcessingOptions (mkProcessingOptionsDict s) = none) ∧
    (s ∈ languageWireStrings →
      (validateTextProcessingOptions (mkProcessingOptionsDict s)).isSome =
        true) ∧
    languageWireStrings.length = 20 ∧ "auto" ∈ languageWireStrings := by
  have elang : enumFieldD TextOutputLanguage.ofWire
      (mkProcessingOptionsDict s) "output_language" TextOutputLanguage.auto =
      TextOutputLanguage.ofWire s := by
    unfold enumFieldD
    rw [show lookupField (mkProcessingOptionsDict s) "output_language" =
      some (JValue.jstr s) from rfl]
  refine ⟨fun hs => ?_, fun hs => ?_, rfl, by decide⟩
  · have hw : TextOutputLanguage.ofWire s = none := by
      simp only [languageWireStrings, List.mem_cons, List.not_mem_nil,
        or_false, not_or] at hs
      obtain ⟨n1, n2, n3, n4, n5, n6, n7, n8, n9, n10,
        n11, n12, n13, n14, n15, n16, n17, n18, n19, n20⟩ := hs
      simp [TextOutputLanguage.ofWire, n1, n2, n3, n4, n5, n6, n7, n8, n9,
        n10, n11, n12, n13, n14, n15, n16, n17, n18, n19, n20]
    unfold validateTextProcessingOptions
    rw [elang, hw]
    rfl
  · simp only [languageWireStrings, List.mem_cons, List.not_mem_nil,
      or_false] at hs
    rcases hs with rfl | rfl | rfl | rfl | rfl | rfl | rfl | rfl | rfl | rfl |
      rfl | rfl | rfl | rfl | rfl | rfl | rfl | rfl | rfl | rfl <;> rfl

/-- Witness for C7 as amended: `klingon` is rejected, the defined code `he`
is accepted. -/
theorem C7_output_language_closed_witness :
    validateTextProcessingOptions (mkProcessingOptionsDict "klingon") =
      none ∧
    (validateTextProcessingOptions (mkProcessingOptionsDict "he")).isSome =
      true :=
  ⟨(C7_output_language_closed "klingon").1 (by decide),
   (C7_output_language_closed "he").2.1 (by decide)⟩

/-- Counterexample to C8: `processing_time_seconds` is declared
`Optional[float]` with no sign constraint, so a structure supplying the
negative value -1 is accepted by validate-and-construct, not rejected. -/
theorem C8_counterexample :
    validatePersistentSession
      (mkSessionDict "sess-1" "user-1" "org-1" "jti-1" "completed" ++
        [("processing_time_seconds", JValue.jfloat (-1))]) =
      some { mkSessionRecord "sess-1" "user-1" "org-1" "jti-1" "completed"
        with processing_time_seconds := some (-1) } := rfl

/-- C8 as amended: when present, `processing_time_seconds` is an
unconstrained optional float: every value, negative values included, is
accepted unchanged by validate-and-construct. -/
theorem C8_processing_time_unconstrained (q : Rat) (h : q < 0) :
    validatePersistentSession
      (mkSessionDict "sess-1" "user-1" "org-1" "jti-1" "completed" ++
        [("processing_time_seconds", JValue.jfloat q)]) =
      some { mkSessionRecord "sess-1" "user-1" "org-1" "jti-1" "completed"
        with processing_time_seconds := some q } := rfl

/-- Witness for C8 as amended: evaluated at the negative value -5/2. -/
theorem C8_processing_time_unconstrained_witness :
    validatePersistentSession
      (mkSessionDict "sess-1" "user-1" "org-1" "jti-1" "completed" ++
        [("processing_time_seconds", JValue.jfloat (-5/2))]) =
      some { mkSessionRecord "sess-1" "user-1" "org-1" "jti-1" "completed"
        with processing_time_seconds := some (-5/2) } :=
  C8_processing_time_unconstrained (-5/2) (by norm_num)

/-- C9: the schema does not restrict `PersistentSession.status` to the four
documented values: every string, including strings outside
{recording, processing, completed, failed}, is accepted by
validate-and-construct in an otherwise valid structure, and is stored
unchanged. -/
theorem C9_status_free_string (s : String) :
    validatePersistentSession
      (mkSessionDict "sess-1" "user-1" "org-1" "jti-1" s) =
      some (mkSessionRecord "sess-1" "user-1" "org-1" "jti-1" s) := rfl

/-- C10: the six date-time fields of `PersistentSession` (`created_at`,
`started_at`, `stopped_at`, `completed_at`, `updated_at`, `ttl_expires_at`)
undergo no format validation: arbitrary strings, the empty string and
non-ISO-8601 text included, are accepted by validate-and-construct in an
otherwise valid structure. -/
theorem C10_datetime_no_format_validation (c st sp cp u ttl : String) :
    validatePersistentSession (mkSessionDictTimes c st sp cp u ttl) =
      some { basePersistentSession with
        created_at := c, started_at := st, stopped_at := some sp,
        completed_at := some cp, updated_at := u,
        ttl_expires_at := ttl } := rfl
